import Mathlib

/-!
Verification of the dagger-pulumi repository's stack-resolution and
authentication-context construction logic.

The repository contains two revisions of a Pulumi Dagger module
(`src/pulumi/src/pulumi/main.py`, embedded here under the `Pulumi`
namespace, and the older `src/src/pulumi/main.py`, embedded under the
`PulumiV0` namespace) plus an Azure DevOps module
(`src/azdo/src/azdo/main.py`, embedded under the `Azdo` namespace).

The Dagger container API is embedded as an immutable record of the
configuration calls the modules actually use; external command execution
(`stdout`, awaiting a container) is abstracted by a `World` oracle mapping
a fully configured container to the captured output of its last exec.
Python's `json.loads` is embedded as an executable recursive-descent
parser over the character list of the input, and exceptions are embedded
as `Except` with an error datatype mirroring the exceptions the code can
raise.
-/

/-- A Dagger directory handle: an opaque identifier plus the list of
subdirectories removed from it via `without_directory`. -/
structure Directory where
  id : String
  removed : List String
deriving Repr, DecidableEq

/-- `Directory.without_directory`, as used via
`infrastructure_path.without_directory("venv")`. -/
def Directory.without_directory (d : Directory) (path : String) : Directory :=
  { d with removed := d.removed ++ [path] }

/-- A Dagger secret handle, carrying the plaintext value it references
(which the engine injects for `with_secret_variable`, and which
`plaintext` would return). -/
structure Secret where
  value : String
deriving Repr, DecidableEq

/-- Python's `str()` of a `dagger.Secret` handle, as an f-string
interpolation performs it: the SDK object's repr, which is the same for
every secret and never reveals the plaintext (the plaintext is only
reachable via `await secret.plaintext()`). -/
def Secret.pyStr (_ : Secret) : String :=
  "<dagger.client.gen.Secret object>"

/-- The Dagger container configuration state: the subset of the container
API surface the repository uses.  Environment variable values are
`Option String` because the source passes possibly-`None` Python values
verbatim to `with_env_variable`. -/
structure Container where
  image : Option String := none
  dirs : List (String × Directory) := []
  files : List (String × String) := []
  envs : List (String × Option String) := []
  secrets : List (String × Secret) := []
  caches : List (String × String) := []
  workdir : Option String := none
  execs : List (List String) := []
deriving Repr, DecidableEq

/-- `dag.container().from_(image)`. -/
def Container.from_ (image : String) : Container :=
  { image := some image }

/-- `Container.with_directory(path, dir)`. -/
def Container.with_directory (c : Container) (path : String) (d : Directory) : Container :=
  { c with dirs := c.dirs ++ [(path, d)] }

/-- `Container.with_new_file(path, contents)`. -/
def Container.with_new_file (c : Container) (path contents : String) : Container :=
  { c with files := c.files ++ [(path, contents)] }

/-- `Container.with_env_variable(name, value)`; the value is `Option String`
so that the source's unconditional `with_env_variable("ARM_CLIENT_ID",
azure_client_id)` on a possibly-`None` argument is representable verbatim. -/
def Container.with_env_variable (c : Container) (name : String) (value : Option String) : Container :=
  { c with envs := c.envs ++ [(name, value)] }

/-- `Container.with_secret_variable(name, secret)`. -/
def Container.with_secret_variable (c : Container) (name : String) (s : Secret) : Container :=
  { c with secrets := c.secrets ++ [(name, s)] }

/-- `Container.with_workdir(path)`. -/
def Container.with_workdir (c : Container) (path : String) : Container :=
  { c with workdir := some path }

/-- `Container.with_mounted_cache(path, dag.cache_volume(key))`. -/
def Container.with_mounted_cache (c : Container) (path key : String) : Container :=
  { c with caches := c.caches ++ [(path, key)] }

/-- `Container.with_exec(args)`: records the command in order. -/
def Container.with_exec (c : Container) (args : List String) : Container :=
  { c with execs := c.execs ++ [args] }

/-- Last-wins lookup of an environment variable in a container, matching
Dagger semantics where a later `with_env_variable` overrides an earlier
one of the same name.  `none` means the variable is not set at all;
`some v` means it is set to the (possibly `None`) value `v`. -/
def Container.envLookup (c : Container) (name : String) : Option (Option String) :=
  (c.envs.reverse.find? (fun p => p.1 == name)).map (fun p => p.2)

/-- Last-wins lookup of a file written into the container. -/
def Container.fileLookup (c : Container) (path : String) : Option String :=
  (c.files.reverse.find? (fun p => p.1 == path)).map (fun p => p.2)

/-- Last-wins lookup of a directory mounted into the container. -/
def Container.dirLookup (c : Container) (path : String) : Option Directory :=
  (c.dirs.reverse.find? (fun p => p.1 == path)).map (fun p => p.2)

/-- The last command issued against the container, if any. -/
def Container.lastExec (c : Container) : Option (List String) :=
  c.execs.getLast?

/-- The external world: maps a fully configured container to the result of
executing it and capturing the standard output of its last exec
(`.stdout()` / awaiting the container).  `Except.error` models a raised
execution error. -/
def World : Type := Container → Except String String

/-- Python JSON values as produced by `json.loads`.  Non-integral numerals
(and the `NaN`, `Infinity`, `-Infinity` constants Python accepts) are kept
as their lexemes in `fnum`; they never compare equal to a string, which is
all the repository's code does with parsed values. -/
inductive Json where
  | null : Json
  | bool : Bool → Json
  | num : Int → Json
  | fnum : String → Json
  | str : String → Json
  | arr : List Json → Json
  | obj : List (String × Json) → Json

/-- The exceptions the embedded code can raise, mirroring Python:
`json.JSONDecodeError`, `AttributeError`, `TypeError`, errors raised by
executing a container, and `RuntimeError` used for wrapping. -/
inductive PulErr where
  | jsonDecodeError (msg : String)
  | attributeError (msg : String)
  | typeError (msg : String)
  | execError (msg : String)
  | runtimeError (msg : String)
deriving Repr, DecidableEq

/-- Python's `str(e)` on an exception: the message it carries. -/
def errMsg : PulErr → String
  | .jsonDecodeError m => m
  | .attributeError m => m
  | .typeError m => m
  | .execError m => m
  | .runtimeError m => m

/-- JSON whitespace accepted by Python's `json.loads`. -/
def isJsonWs (c : Char) : Bool :=
  c == ' ' || c == '\t' || c == '\n' || c == '\r'

/-- Skip leading JSON whitespace. -/
def skipWs (cs : List Char) : List Char :=
  cs.dropWhile isJsonWs

/-- Hexadecimal digit value, written over code points: `0`-`9` are 48-57,
`A`-`F` are 65-70, `a`-`f` are 97-102. -/
def hexVal (c : Char) : Option Nat :=
  let n := c.toNat
  if 48 ≤ n && n ≤ 57 then some (n - 48)
  else if 97 ≤ n && n ≤ 102 then some (n - 87)
  else if 65 ≤ n && n ≤ 70 then some (n - 55)
  else none

/-- Turn a code point into a `Char`, with the usual total fallback. -/
def codeToChar (n : Nat) : Char :=
  Char.ofNat n

/-- Parse the body of a JSON string after the opening quote, with Python's
strict-mode rules: raw control characters are rejected, the standard
escapes plus a 4-hex-digit unicode escape are accepted.  (Surrogate-pair
combination for astral code points is approximated: each unicode escape is
decoded independently.) -/
def parseStringBody (acc : List Char) : List Char → Except String (String × List Char)
  | [] => .error "Unterminated string"
  | '"' :: rest => .ok (String.mk acc.reverse, rest)
  | '\\' :: 'u' :: a :: b :: c :: d :: rest =>
    match hexVal a, hexVal b, hexVal c, hexVal d with
    | some va, some vb, some vc, some vd =>
      parseStringBody (codeToChar (va * 4096 + vb * 256 + vc * 16 + vd) :: acc) rest
    | _, _, _, _ => .error "Invalid unicode escape"
  | '\\' :: e :: rest =>
    match e with
    | '"' => parseStringBody ('"' :: acc) rest
    | '\\' => parseStringBody ('\\' :: acc) rest
    | '/' => parseStringBody ('/' :: acc) rest
    | 'b' => parseStringBody ('\x08' :: acc) rest
    | 'f' => parseStringBody ('\x0C' :: acc) rest
    | 'n' => parseStringBody ('\n' :: acc) rest
    | 'r' => parseStringBody ('\r' :: acc) rest
    | 't' => parseStringBody ('\t' :: acc) rest
    | 'u' => .error "Invalid unicode escape"
    | _ => .error "Invalid escape"
  | c :: rest =>
    if c.toNat < 32 then .error "Invalid control character"
    else parseStringBody (c :: acc) rest

/-- Digits to a natural number. -/
def digitsToNat (ds : List Char) : Nat :=
  ds.foldl (fun acc c => acc * 10 + (c.toNat - '0'.toNat)) 0

/-- Parse a JSON number token with Python's grammar: optional minus, an
integer part without leading zeros, optional fraction and exponent.  A
purely integral numeral becomes `Json.num`; anything with a fraction or
exponent keeps its lexeme as `Json.fnum`.  A malformed fraction or
exponent is simply not consumed, matching the scanner regex of Python's
`json` module (the stray text then trips the extra-data check). -/
def parseNumberTok (cs : List Char) : Except String (Json × List Char) :=
  let sgn : Bool × List Char := match cs with
    | '-' :: r => (true, r)
    | _ => (false, cs)
  match sgn.2 with
  | c :: _ =>
    if c.isDigit then
      let ip : List Char × List Char := match sgn.2 with
        | '0' :: r => (['0'], r)
        | other => other.span (fun ch => ch.isDigit)
      let fp : List Char × List Char := match ip.2 with
        | '.' :: r =>
          let p := r.span (fun ch => ch.isDigit)
          if p.1.isEmpty then ([], ip.2) else ('.' :: p.1, p.2)
        | _ => ([], ip.2)
      let ep : List Char × List Char := match fp.2 with
        | e :: r =>
          if e == 'e' || e == 'E' then
            let sp : List Char × List Char := match r with
              | '+' :: rr => (['+'], rr)
              | '-' :: rr => (['-'], rr)
              | _ => ([], r)
            let p := sp.2.span (fun ch => ch.isDigit)
            if p.1.isEmpty then ([], fp.2) else (e :: (sp.1 ++ p.1), p.2)
          else ([], fp.2)
        | [] => ([], fp.2)
      if fp.1.isEmpty && ep.1.isEmpty then
        let n : Int := Int.ofNat (digitsToNat ip.1)
        .ok (.num (if sgn.1 then -n else n), ip.2)
      else
        .ok (.fnum (String.mk ((if sgn.1 then ['-'] else []) ++ ip.1 ++ fp.1 ++ ep.1)), ep.2)
    else .error "Expecting value"
  | [] => .error "Expecting value"

/-- Parse the tail of a JSON array (after the first element), consuming
one `fuel` unit per element; `pv` parses a single value. -/
def parseArrTail (pv : List Char → Except String (Json × List Char)) :
    Nat → List Char → List Json → Except String (Json × List Char)
  | 0, _, _ => .error "Array too long"
  | n + 1, cs, acc =>
    match skipWs cs with
    | ']' :: rest => .ok (.arr acc.reverse, rest)
    | ',' :: rest =>
      match pv (skipWs rest) with
      | .error e => .error e
      | .ok (v, rest2) => parseArrTail pv n rest2 (v :: acc)
    | _ => .error "Expecting comma or closing bracket"

/-- Parse one `"key": value` member of a JSON object. -/
def parseMember (pv : List Char → Except String (Json × List Char)) (cs : List Char) :
    Except String ((String × Json) × List Char) :=
  match skipWs cs with
  | '"' :: rest =>
    match parseStringBody [] rest with
    | .error e => .error e
    | .ok (k, rest2) =>
      match skipWs rest2 with
      | ':' :: rest3 =>
        match pv (skipWs rest3) with
        | .error e => .error e
        | .ok (v, rest4) => .ok ((k, v), rest4)
      | _ => .error "Expecting colon"
  | _ => .error "Expecting property name"

/-- Parse the tail of a JSON object (after the first member). -/
def parseObjTail (pv : List Char → Except String (Json × List Char)) :
    Nat → List Char → List (String × Json) → Except String (Json × List Char)
  | 0, _, _ => .error "Object too long"
  | n + 1, cs, acc =>
    match skipWs cs with
    | '\x7d' :: rest => .ok (.obj acc.reverse, rest)
    | ',' :: rest =>
      match parseMember pv rest with
      | .error e => .error e
      | .ok (kv, rest2) => parseObjTail pv n rest2 (kv :: acc)
    | _ => .error "Expecting comma or closing brace"

/-- One layer of JSON value parsing, with `pv` parsing nested values. -/
def parseValAux (pv : List Char → Except String (Json × List Char)) :
    List Char → Except String (Json × List Char)
  | 'n' :: 'u' :: 'l' :: 'l' :: rest => .ok (.null, rest)
  | 't' :: 'r' :: 'u' :: 'e' :: rest => .ok (.bool true, rest)
  | 'f' :: 'a' :: 'l' :: 's' :: 'e' :: rest => .ok (.bool false, rest)
  | 'N' :: 'a' :: 'N' :: rest => .ok (.fnum "NaN", rest)
  | 'I' :: 'n' :: 'f' :: 'i' :: 'n' :: 'i' :: 't' :: 'y' :: rest =>
    .ok (.fnum "Infinity", rest)
  | '-' :: 'I' :: 'n' :: 'f' :: 'i' :: 'n' :: 'i' :: 't' :: 'y' :: rest =>
    .ok (.fnum "-Infinity", rest)
  | '"' :: rest =>
    match parseStringBody [] rest with
    | .error e => .error e
    | .ok (s, rest2) => .ok (.str s, rest2)
  | '[' :: rest =>
    (match skipWs rest with
    | ']' :: rest2 => .ok (.arr [], rest2)
    | cs2 =>
      match pv cs2 with
      | .error e => .error e
      | .ok (v, rest2) => parseArrTail pv (rest2.length + 1) rest2 [v])
  | '\x7b' :: rest =>
    (match skipWs rest with
    | '\x7d' :: rest2 => .ok (.obj [], rest2)
    | cs2 =>
      match parseMember pv cs2 with
      | .error e => .error e
      | .ok (kv, rest2) => parseObjTail pv (rest2.length + 1) rest2 [kv])
  | cs =>
    match cs with
    | c :: _ => if c == '-' || c.isDigit then parseNumberTok cs else .error "Expecting value"
    | [] => .error "Expecting value"

/-- Fuelled JSON value parser; each nesting level consumes one unit. -/
def parseVal : Nat → List Char → Except String (Json × List Char)
  | 0 => fun _ => .error "Too deeply nested"
  | n + 1 => parseValAux (parseVal n)

/-- Python's `json.loads`: parse a complete JSON document, requiring the
whole input (up to trailing whitespace) to be consumed. -/
def json_loads (s : String) : Except String Json :=
  let cs := skipWs s.data
  match parseVal (cs.length + 1) cs with
  | .error e => .error e
  | .ok (v, rest) => if (skipWs rest).isEmpty then .ok v else .error "Extra data"

/-- Python dictionary `get` on a JSON object: `json.loads` keeps the last
of duplicate keys, so the lookup takes the last matching binding. -/
def pyDictGet (kvs : List (String × Json)) (k : String) : Option Json :=
  (kvs.reverse.find? (fun p => p.1 == k)).map (fun p => p.2)

/-- Python equality `v == name` between `stack.get("name")`'s result and a
string: `None` and non-string JSON values never equal a string. -/
def pyEqStr (v : Option Json) (name : String) : Bool :=
  match v with
  | some (.str s) => s == name
  | _ => false

/-- The generator loop of `any(stack.get("name") == name for stack in
stacks)` over a list: short-circuits on the first match, raises
`AttributeError` when a non-dict element is reached first. -/
def anyNameLoop (name : String) : List Json → Except PulErr Bool
  | [] => .ok false
  | x :: xs =>
    match x with
    | .obj kvs =>
      if pyEqStr (pyDictGet kvs "name") name then .ok true
      else anyNameLoop name xs
    | _ => .error (.attributeError "object has no attribute get")

/-- `any(stack.get("name") == name for stack in stacks)` over an arbitrary
parsed JSON value, with Python iteration semantics: arrays iterate their
elements, dicts iterate their keys (strings, which lack `.get`), strings
iterate their characters, and everything else is not iterable. -/
def pyAnyNameEq (stackVal : Json) (name : String) : Except PulErr Bool :=
  match stackVal with
  | .arr xs => anyNameLoop name xs
  | .obj [] => .ok false
  | .obj (_ :: _) => .error (.attributeError "object has no attribute get")
  | .str s => if s.isEmpty then .ok false else .error (.attributeError "object has no attribute get")
  | _ => .error (.typeError "object is not iterable")

/-- A stack-list response: a JSON array of record objects. -/
def stackListJson (records : List (List (String × Json))) : Json :=
  .arr (records.map Json.obj)

/-- Existence test used by the spec: some record's `name` field is a string
exactly equal (case-sensitive) to the requested name. -/
def hasStackName (records : List (List (String × Json))) (name : String) : Bool :=
  records.any (fun r => pyEqStr (pyDictGet r "name") name)

/-- Modelled from the spec: the error taxonomy class `StackQueryError`
(section 7) covers listing/parsing failures of the stack-list step; the
source has no class of this name and lets `json.JSONDecodeError` or the
container-execution error propagate, so the class is realized as a
predicate over the raised error. -/
def isStackQueryError : PulErr → Bool
  | .jsonDecodeError _ => true
  | .execError _ => true
  | _ => false

/-- Awaiting a container (`await ctr.with_exec([...])`): executes the
pipeline via the world oracle; on success the value is the container. -/
def awaitCtr (world : World) (c : Container) : Except PulErr Container :=
  match world c with
  | .error e => .error (.execError e)
  | .ok _ => .ok c

/-- The `Pulumi` object's fields with their `field(default=...)` values
(current revision, `src/pulumi/src/pulumi/main.py`). -/
structure PulumiState where
  storage_account_name : String := ""
  container_name : String := ""
  stack_name : String := ""
  cache_dir : String := "/root/.cache/uv"
  pulumi_image : String := "pulumi/pulumi:latest"
deriving Repr, DecidableEq

/-- A `Pulumi()` object as constructed with all defaults. -/
def defaultPulumi : PulumiState := {}

/-- `Pulumi.build_container` (current revision): base image, `/infra`
mount of the venv-filtered source, workdir, pip/uv install, cache mount,
`pulumi install`. -/
def PulumiState.build_container (self : PulumiState) (infrastructure_path : Directory) : Container :=
  let filtered_source := infrastructure_path.without_directory "venv"
  (((((Container.from_ self.pulumi_image).with_directory "/infra" filtered_source).with_workdir
    "/infra").with_exec ["pip", "install", "uv"]).with_mounted_cache self.cache_dir
    "python-313").with_exec ["pulumi", "install"]

/-- `Pulumi.pulumi_az_base` (current revision): the authentication context
builder.  The CLI branch mounts the config and sets the marker variable;
the OIDC branch (taken when the token is truthy, i.e. a non-empty string)
writes the token file and sets the nine OIDC environment variables, the
client/tenant ids verbatim even when `None`; the passphrase secret and the
`pulumi login` exec are added unconditionally. -/
def PulumiState.pulumi_az_base (self : PulumiState) (config_passphrase : Secret)
    (infrastructure_path : Directory) (azure_cli_path : Option Directory)
    (azure_oidc_token azure_client_id azure_tenant_id : Option String) : Container :=
  let blob_address :=
    "azblob://" ++ self.container_name ++ "?storage_account=" ++ self.storage_account_name
  let ctr := self.build_container infrastructure_path
  let ctr := match azure_cli_path with
    | some d => (ctr.with_directory "/root/.azure" d).with_env_variable "AZURE_AUTH" (some "az")
    | none => ctr
  let ctr := match azure_oidc_token with
    | some t =>
      if t.isEmpty then ctr
      else
        ((((((((((ctr.with_new_file "/root/.azure/oidc_token" t).with_env_variable
          "ARM_OIDC_TOKEN" (some t)).with_env_variable
          "AZURE_OIDC_TOKEN" (some t)).with_env_variable
          "ARM_USE_OIDC" (some "true")).with_env_variable
          "AZURE_USE_OIDC" (some "true")).with_env_variable
          "ARM_CLIENT_ID" azure_client_id).with_env_variable
          "AZURE_CLIENT_ID" azure_client_id).with_env_variable
          "ARM_TENANT_ID" azure_tenant_id).with_env_variable
          "AZURE_TENANT_ID" azure_tenant_id).with_env_variable
          "AZURE_FEDERATED_TOKEN_FILE" (some "/root/.azure/oidc_token"))
    | none => ctr
  (ctr.with_secret_variable "PULUMI_CONFIG_PASSPHRASE" config_passphrase).with_exec
    ["pulumi", "login", blob_address]

/-- `Pulumi.test_stack` (current revision): run `pulumi stack ls --json`,
parse the stdout with `json.loads`, and test whether any record's name
equals `self.stack_name`; parse failures and execution failures
propagate. -/
def Pulumi.test_stack (self : PulumiState) (world : World) (container : Container) :
    Except PulErr Bool :=
  match world (container.with_exec ["pulumi", "stack", "ls", "--json"]) with
  | .error e => .error (.execError e)
  | .ok result =>
    match json_loads result with
    | .error e => .error (.jsonDecodeError e)
    | .ok parsed => pyAnyNameEq parsed self.stack_name

/-- `Pulumi.create_or_select_stack` (current revision): build the auth
base, test for the stack named by the `stack_name` field, then issue
`pulumi stack init` when absent and `pulumi stack select` when present. -/
def Pulumi.create_or_select_stack (self : PulumiState) (config_passphrase : Secret)
    (infrastructure_path : Directory) (azure_cli_path : Option Directory)
    (azure_oidc_token azure_client_id azure_tenant_id : Option String) (world : World) :
    Except PulErr Container :=
  let ctr := self.pulumi_az_base config_passphrase infrastructure_path azure_cli_path
    azure_oidc_token azure_client_id azure_tenant_id
  match Pulumi.test_stack self world ctr with
  | .error e => .error e
  | .ok b =>
    if !b then awaitCtr world (ctr.with_exec ["pulumi", "stack", "init", self.stack_name])
    else awaitCtr world (ctr.with_exec ["pulumi", "stack", "select", self.stack_name])

/-- `Pulumi.preview` (current revision): assigns the three mutable fields
from its arguments, resolves the stack, runs `pulumi preview`, and wraps
any raised error in `RuntimeError("Error during Pulumi preview: ...")`.
Returns the updated object state together with the result. -/
def Pulumi.preview (self : PulumiState) (storage_account_name container_name : String)
    (config_passphrase : Secret) (infrastructure_path : Directory) (stack_name : String)
    (azure_cli_path : Option Directory)
    (azure_oidc_token azure_client_id azure_tenant_id : Option String) (world : World) :
    PulumiState × Except PulErr String :=
  let self := { self with storage_account_name := storage_account_name,
                          container_name := container_name, stack_name := stack_name }
  let r : Except PulErr String :=
    match Pulumi.create_or_select_stack self config_passphrase infrastructure_path
      azure_cli_path azure_oidc_token azure_client_id azure_tenant_id world with
    | .error e => .error (.runtimeError ("Error during Pulumi preview: " ++ errMsg e))
    | .ok ctr =>
      match world (ctr.with_exec ["pulumi", "preview"]) with
      | .error e => .error (.runtimeError ("Error during Pulumi preview: " ++ e))
      | .ok out => .ok out
  (self, r)

/-- `Pulumi.up` (current revision): like `preview` but runs
`pulumi up -f` and wraps errors as `"Error during Pulumi up: ..."`. -/
def Pulumi.up (self : PulumiState) (storage_account_name container_name : String)
    (config_passphrase : Secret) (infrastructure_path : Directory) (stack_name : String)
    (azure_cli_path : Option Directory)
    (azure_oidc_token azure_client_id azure_tenant_id : Option String) (world : World) :
    PulumiState × Except PulErr String :=
  let self := { self with storage_account_name := storage_account_name,
                          container_name := container_name, stack_name := stack_name }
  let r : Except PulErr String :=
    match Pulumi.create_or_select_stack self config_passphrase infrastructure_path
      azure_cli_path azure_oidc_token azure_client_id azure_tenant_id world with
    | .error e => .error (.runtimeError ("Error during Pulumi up: " ++ errMsg e))
    | .ok ctr =>
      match world (ctr.with_exec ["pulumi", "up", "-f"]) with
      | .error e => .error (.runtimeError ("Error during Pulumi up: " ++ e))
      | .ok out => .ok out
  (self, r)

/-- Lowercase hexadecimal digit. -/
def hexDigit (n : Nat) : Char :=
  if n < 10 then Char.ofNat ('0'.toNat + n) else Char.ofNat ('a'.toNat + (n - 10))

/-- Four lowercase hexadecimal digits, as in Python's `\uXXXX` escapes. -/
def hex4 (n : Nat) : String :=
  String.mk [hexDigit (n / 4096 % 16), hexDigit (n / 256 % 16), hexDigit (n / 16 % 16),
    hexDigit (n % 16)]

/-- Escape one character the way `json.dumps` does with its default
`ensure_ascii=True`: the two-character escapes, `\u00xx` for other control
characters, ASCII verbatim, and `\uXXXX` (with surrogate pairs for astral
code points) for everything else. -/
def dumpsEscapeChar (c : Char) : String :=
  if c == '"' then "\\\""
  else if c == '\\' then "\\\\"
  else if c == '\n' then "\\n"
  else if c == '\r' then "\\r"
  else if c == '\t' then "\\t"
  else if c == '\x08' then "\\b"
  else if c == '\x0C' then "\\f"
  else if c.toNat < 32 then "\\u" ++ hex4 c.toNat
  else if c.toNat < 127 then String.mk [c]
  else if c.toNat < 65536 then "\\u" ++ hex4 c.toNat
  else
    "\\u" ++ hex4 (55296 + (c.toNat - 65536) / 1024) ++
    "\\u" ++ hex4 (56320 + (c.toNat - 65536) % 1024)

/-- Serialize a string as a JSON string literal, `json.dumps`-style. -/
def jsonQuote (s : String) : String :=
  "\"" ++ String.join (s.data.map dumpsEscapeChar) ++ "\""

mutual

/-- Python's `json.dumps` with its default separators. -/
def json_dumps : Json → String
  | .null => "null"
  | .bool true => "true"
  | .bool false => "false"
  | .num n => toString n
  | .fnum s => s
  | .str s => jsonQuote s
  | .arr xs => "[" ++ dumpsItems xs ++ "]"
  | .obj kvs => "\x7b" ++ dumpsMembers kvs ++ "\x7d"

def dumpsItems : List Json → String
  | [] => ""
  | [x] => json_dumps x
  | x :: y :: xs => json_dumps x ++ ", " ++ dumpsItems (y :: xs)

def dumpsMembers : List (String × Json) → String
  | [] => ""
  | [(k, v)] => jsonQuote k ++ ": " ++ json_dumps v
  | (k, v) :: kv :: kvs => jsonQuote k ++ ": " ++ json_dumps v ++ ", " ++ dumpsMembers (kv :: kvs)

end

/-- `Pulumi.test_stack` (older revision, `src/src/pulumi/main.py`): same
query but the stack name is an explicit parameter. -/
def PulumiV0.test_stack (world : World) (container : Container) (stack_name : String) :
    Except PulErr Bool :=
  match world (container.with_exec ["pulumi", "stack", "ls", "--json"]) with
  | .error e => .error (.execError e)
  | .ok stack_output =>
    match json_loads stack_output with
    | .error e => .error (.jsonDecodeError e)
    | .ok parsed => pyAnyNameEq parsed stack_name

/-- `Pulumi.pulumi_az_base` (older revision): fixed base image, CLI and
OIDC branches, then passphrase secret, `/infra` mount, workdir and login.
The OIDC token is a Dagger secret here; the token variables are set as
secret variables, the federated-token variable name carries the source's
trailing space verbatim, and the file content stands for the source's
`azure_oidc_token.plaintext`. -/
def PulumiV0.pulumi_az_base (storage_account_name container_name : String)
    (config_passphrase : Secret) (infrastructure_path : Directory)
    (azure_cli_path : Option Directory) (azure_oidc_token : Option Secret)
    (azure_client_id azure_tenant_id : Option String) : Container :=
  let blob_address :=
    "azblob://" ++ container_name ++ "?storage_account=" ++ storage_account_name
  let filtered_source := infrastructure_path.without_directory "venv"
  let ctr := Container.from_ "pulumi/pulumi:latest"
  let ctr := match azure_cli_path with
    | some d => (ctr.with_directory "/root/.azure" d).with_env_variable "AZURE_AUTH" (some "az")
    | none => ctr
  let ctr := match azure_oidc_token with
    | some tok =>
      (((((((((ctr.with_new_file "/root/.azure/oidc_token" tok.value).with_secret_variable
        "ARM_OIDC_TOKEN" tok).with_secret_variable
        "AZURE_OIDC_TOKEN" tok).with_env_variable
        "ARM_USE_OIDC" (some "true")).with_env_variable
        "AZURE_USE_OIDC" (some "true")).with_env_variable
        "ARM_CLIENT_ID" azure_client_id).with_env_variable
        "AZURE_CLIENT_ID" azure_client_id).with_env_variable
        "ARM_TENANT_ID" azure_tenant_id).with_env_variable
        "AZURE_TENANT_ID" azure_tenant_id).with_env_variable
        "AZURE_FEDERATED_TOKEN_FILE " (some "/root/.azure/oidc_token")
    | none => ctr
  (((ctr.with_secret_variable "PULUMI_CONFIG_PASSPHRASE" config_passphrase).with_directory
    "/infra" filtered_source).with_workdir "/infra").with_exec ["pulumi", "login", blob_address]

/-- `Pulumi.create_or_select_stack` (older revision). -/
def PulumiV0.create_or_select_stack (storage_account_name container_name : String)
    (config_passphrase : Secret) (infrastructure_path : Directory) (stack_name : String)
    (azure_cli_path : Option Directory) (azure_oidc_token : Option Secret)
    (azure_client_id azure_tenant_id : Option String) (world : World) :
    Except PulErr Container :=
  let ctr := PulumiV0.pulumi_az_base storage_account_name container_name config_passphrase
    infrastructure_path azure_cli_path azure_oidc_token azure_client_id azure_tenant_id
  match PulumiV0.test_stack world ctr stack_name with
  | .error e => .error e
  | .ok b =>
    if !b then awaitCtr world (ctr.with_exec ["pulumi", "stack", "init", stack_name])
    else awaitCtr world (ctr.with_exec ["pulumi", "stack", "select", stack_name])

/-- `Pulumi.preview` (older revision): no try/except, so every failure
propagates to the caller unwrapped. -/
def PulumiV0.preview (storage_account_name container_name : String)
    (config_passphrase : Secret) (infrastructure_path : Directory) (stack_name : String)
    (azure_cli_path : Option Directory) (azure_oidc_token : Option Secret)
    (azure_client_id azure_tenant_id : Option String) (world : World) :
    Except PulErr String :=
  match PulumiV0.create_or_select_stack storage_account_name container_name config_passphrase
    infrastructure_path stack_name azure_cli_path azure_oidc_token azure_client_id
    azure_tenant_id world with
  | .error e => .error e
  | .ok ctr =>
    match world (ctr.with_exec ["pulumi", "preview"]) with
    | .error e => .error (.execError e)
    | .ok out => .ok out

/-- `Pulumi.up` (older revision): no try/except either; note the source's
argument order (`infrastructure_path` before `stack_name` before
`config_passphrase`). -/
def PulumiV0.up (storage_account_name container_name : String)
    (infrastructure_path : Directory) (stack_name : String) (config_passphrase : Secret)
    (azure_cli_path : Option Directory) (azure_oidc_token : Option Secret)
    (azure_client_id azure_tenant_id : Option String) (world : World) :
    Except PulErr String :=
  match PulumiV0.create_or_select_stack storage_account_name container_name config_passphrase
    infrastructure_path stack_name azure_cli_path azure_oidc_token azure_client_id
    azure_tenant_id world with
  | .error e => .error e
  | .ok ctr =>
    match world (ctr.with_exec ["pulumi", "up", "-f"]) with
    | .error e => .error (.execError e)
    | .ok out => .ok out

/-- `Azdo.comment_on_pr`'s container pipeline: the curl image, the PAT
mounted as the `AZURE_DEVOPS_PAT` secret variable (and not otherwise
used), and a single curl POST carrying the interpolated API URL, the
JSON-serialized payload and the Authorization header.  The source builds
that header with `f"Authorization: Basic {azure_devops_pat}"`, an
f-string over the `dagger.Secret` handle itself, so the header text is
the handle's string form (`Secret.pyStr`), not the token plaintext. -/
def Azdo.comment_ctr (azure_devops_pat : Secret)
    (organization_url project repository_id pr_id comment : String) : Container :=
  let api_url := organization_url ++ "/" ++ project ++ "/_apis/git/repositories/" ++
    repository_id ++ "/pullRequests/" ++ pr_id ++ "/threads?api-version=6.0"
  let payload : Json := .obj [("comments", .arr [.obj [("parentCommentId", .num 0),
    ("content", .str comment), ("commentType", .num 1)]]), ("status", .num 1)]
  let ctr := Container.from_ "curlimages/curl:latest"
  (ctr.with_secret_variable "AZURE_DEVOPS_PAT" azure_devops_pat).with_exec
    ["curl", "-X", "POST", api_url, "-H", "Content-Type: application/json", "-H",
      "Authorization: Basic " ++ Secret.pyStr azure_devops_pat, "-d", json_dumps payload]

/-- `Azdo.comment_on_pr`: execute the pipeline and return the captured
stdout. -/
def Azdo.comment_on_pr (world : World) (azure_devops_pat : Secret)
    (organization_url project repository_id pr_id comment : String) : Except PulErr String :=
  match world (Azdo.comment_ctr azure_devops_pat organization_url project repository_id
    pr_id comment) with
  | .error e => .error (.execError e)
  | .ok response => .ok response

/-- The payload dictionary of `Azdo.comment_on_pr`, as displayed in the
specification. -/
def Azdo.azdoPayload (comment : String) : Json :=
  .obj [("comments", .arr [.obj [("parentCommentId", .num 0), ("content", .str comment),
    ("commentType", .num 1)]]), ("status", .num 1)]

/-- The generator loop over a list of record objects never raises and
computes the existence test. -/
theorem anyNameLoop_map_obj (name : String) (records : List (List (String × Json))) :
    anyNameLoop name (records.map Json.obj) =
      .ok (records.any (fun r => pyEqStr (pyDictGet r "name") name)) := by
  induction records with
  | nil => rfl
  | cons r rs ih =>
    simp only [List.map_cons, anyNameLoop, List.any_cons]
    cases h : pyEqStr (pyDictGet r "name") name with
    | true => simp [h]
    | false => simp [h, ih]

/-- On a stack-list response, the Python `any` computes `hasStackName`. -/
theorem pyAnyNameEq_stackList (name : String) (records : List (List (String × Json))) :
    pyAnyNameEq (stackListJson records) name = .ok (hasStackName records name) := by
  simp [pyAnyNameEq, stackListJson, anyNameLoop_map_obj, hasStackName]

/-- `test_stack` on a container whose stack listing parses to a stack-list
response returns the existence test for the object's `stack_name`. -/
theorem Pulumi.test_stack_spec (self : PulumiState) (world : World) (ctr : Container)
    (s : String) (records : List (List (String × Json)))
    (hls : world (ctr.with_exec ["pulumi", "stack", "ls", "--json"]) = .ok s)
    (hparse : json_loads s = .ok (stackListJson records)) :
    Pulumi.test_stack self world ctr = .ok (hasStackName records self.stack_name) := by
  simp only [Pulumi.test_stack, hls, hparse, pyAnyNameEq_stackList]

/-- The resolution equation shared by the stack-resolution claims: when
the listing parses to a stack-list response and the chosen stack command
succeeds, `create_or_select_stack` returns the auth base extended with
exactly one stack command, `select` on a name match and `init` otherwise. -/
theorem Pulumi.create_or_select_resolved (self : PulumiState) (config_passphrase : Secret)
    (infrastructure_path : Directory) (azure_cli_path : Option Directory)
    (azure_oidc_token azure_client_id azure_tenant_id : Option String) (world : World)
    (s out : String) (records : List (List (String × Json)))
    (hls : world ((self.pulumi_az_base config_passphrase infrastructure_path azure_cli_path
      azure_oidc_token azure_client_id azure_tenant_id).with_exec
      ["pulumi", "stack", "ls", "--json"]) = .ok s)
    (hparse : json_loads s = .ok (stackListJson records))
    (hrun : world ((self.pulumi_az_base config_passphrase infrastructure_path azure_cli_path
      azure_oidc_token azure_client_id azure_tenant_id).with_exec
      ["pulumi", "stack",
        if hasStackName records self.stack_name then "select" else "init",
        self.stack_name]) = .ok out) :
    Pulumi.create_or_select_stack self config_passphrase infrastructure_path azure_cli_path
      azure_oidc_token azure_client_id azure_tenant_id world =
    .ok ((self.pulumi_az_base config_passphrase infrastructure_path azure_cli_path
      azure_oidc_token azure_client_id azure_tenant_id).with_exec
      ["pulumi", "stack",
        if hasStackName records self.stack_name then "select" else "init",
        self.stack_name]) := by
  have ht := Pulumi.test_stack_spec self world _ s records hls hparse
  cases h : hasStackName records self.stack_name with
  | false =>
    rw [h] at ht hrun
    simp only [if_neg, Bool.false_eq_true, not_false_eq_true, ite_false] at hrun
    simp [Pulumi.create_or_select_stack, ht, awaitCtr, hrun, h]
  | true =>
    rw [h] at ht hrun
    simp only [ite_true] at hrun
    simp [Pulumi.create_or_select_stack, ht, awaitCtr, hrun, h]

/-- Claim C1: for every parsed stack-list response and every requested
stack name, stack resolution (`create_or_select_stack` via `test_stack`)
issues the `select` command iff some record in the list has a `name` field
exactly equal (case-sensitively, without normalization) to the requested
name, and issues the `init` command otherwise; in particular the empty
list always leads to `init`. -/
theorem c1_stack_resolution (self : PulumiState) (config_passphrase : Secret)
    (infrastructure_path : Directory) (azure_cli_path : Option Directory)
    (azure_oidc_token azure_client_id azure_tenant_id : Option String) (world : World)
    (s out : String) (records : List (List (String × Json)))
    (hls : world ((self.pulumi_az_base config_passphrase infrastructure_path azure_cli_path
      azure_oidc_token azure_client_id azure_tenant_id).with_exec
      ["pulumi", "stack", "ls", "--json"]) = .ok s)
    (hparse : json_loads s = .ok (stackListJson records))
    (hrun : world ((self.pulumi_az_base config_passphrase infrastructure_path azure_cli_path
      azure_oidc_token azure_client_id azure_tenant_id).with_exec
      ["pulumi", "stack",
        if hasStackName records self.stack_name then "select" else "init",
        self.stack_name]) = .ok out) :
    Pulumi.create_or_select_stack self config_passphrase infrastructure_path azure_cli_path
      azure_oidc_token azure_client_id azure_tenant_id world =
    .ok ((self.pulumi_az_base config_passphrase infrastructure_path azure_cli_path
      azure_oidc_token azure_client_id azure_tenant_id).with_exec
      ["pulumi", "stack",
        if hasStackName records self.stack_name then "select" else "init",
        self.stack_name]) :=
  Pulumi.create_or_select_resolved self config_passphrase infrastructure_path azure_cli_path
    azure_oidc_token azure_client_id azure_tenant_id world s out records hls hparse hrun

/-- Witness for C1 at a concrete input: requested name `dev` against the
listing `[{"name": "dev"}]` resolves to `select`. -/
theorem c1_stack_resolution_witness :
    Pulumi.create_or_select_stack { defaultPulumi with stack_name := "dev" } (Secret.mk "pw")
      (Directory.mk "i" []) none none none none
      (fun _ => Except.ok "[\x7b\"name\": \"dev\"\x7d]") =
    Except.ok ((PulumiState.pulumi_az_base { defaultPulumi with stack_name := "dev" }
      (Secret.mk "pw") (Directory.mk "i" []) none none none none).with_exec
      ["pulumi", "stack", "select", "dev"]) :=
  c1_stack_resolution { defaultPulumi with stack_name := "dev" } (Secret.mk "pw")
    (Directory.mk "i" []) none none none none
    (fun _ => Except.ok "[\x7b\"name\": \"dev\"\x7d]")
    "[\x7b\"name\": \"dev\"\x7d]" "[\x7b\"name\": \"dev\"\x7d]"
    [[("name", Json.str "dev")]] rfl rfl rfl

/-- Claim C3: for every listing output that is not valid JSON, the
stack-listing step raises the parse failure (classified by the spec's
taxonomy as a `StackQueryError`) instead of returning `false`, and the
resolution step propagates it instead of taking the `init` path. -/
theorem c3_malformed_json_raises (self : PulumiState) (config_passphrase : Secret)
    (infrastructure_path : Directory) (azure_cli_path : Option Directory)
    (azure_oidc_token azure_client_id azure_tenant_id : Option String) (world : World)
    (s e : String)
    (hls : world ((self.pulumi_az_base config_passphrase infrastructure_path azure_cli_path
      azure_oidc_token azure_client_id azure_tenant_id).with_exec
      ["pulumi", "stack", "ls", "--json"]) = .ok s)
    (hbad : json_loads s = .error e) :
    Pulumi.test_stack self world (self.pulumi_az_base config_passphrase infrastructure_path
      azure_cli_path azure_oidc_token azure_client_id azure_tenant_id) =

      .error (.jsonDecodeError e) ∧
    Pulumi.create_or_select_stack self config_passphrase infrastructure_path azure_cli_path
      azure_oidc_token azure_client_id azure_tenant_id world = .error (.jsonDecodeError e) ∧
    isStackQueryError (PulErr.jsonDecodeError e) = true := by
  have h1 : Pulumi.test_stack self world (self.pulumi_az_base config_passphrase
      infrastructure_path azure_cli_path azure_oidc_token azure_client_id azure_tenant_id) =
      .error (.jsonDecodeError e) := by
    simp only [Pulumi.test_stack, hls, hbad]
  refine ⟨h1, ?_, rfl⟩
  simp only [Pulumi.create_or_select_stack, h1]

/-- Witness for C3 at a concrete input: the listing output `not json`
makes `test_stack` and `create_or_select_stack` raise the decode error. -/
theorem c3_malformed_json_raises_witness :
    Pulumi.test_stack { defaultPulumi with stack_name := "dev" }
      (fun _ => Except.ok "not json")
      (PulumiState.pulumi_az_base { defaultPulumi with stack_name := "dev" } (Secret.mk "pw")
        (Directory.mk "i" []) none none none none) =
      Except.error (PulErr.jsonDecodeError "Expecting value") ∧
    Pulumi.create_or_select_stack { defaultPulumi with stack_name := "dev" } (Secret.mk "pw")
      (Directory.mk "i" []) none none none none (fun _ => Except.ok "not json") =
      Except.error (PulErr.jsonDecodeError "Expecting value") ∧
    isStackQueryError (PulErr.jsonDecodeError "Expecting value") = true :=
  c3_malformed_json_raises { defaultPulumi with stack_name := "dev" } (Secret.mk "pw")
    (Directory.mk "i" []) none none none none (fun _ => Except.ok "not json")
    "not json" "Expecting value" rfl rfl

/-- Claim C10: in the current revision, whose resolver takes no stack-name
parameter, invoking `create_or_select_stack` on a default-constructed
object resolves against the `stack_name` field's default value, the empty
string: whenever no listed record is named by the empty string it issues
`pulumi stack init` with the empty name instead of rejecting the missing
stack name. -/
theorem c10_empty_default_stack_name (config_passphrase : Secret)
    (infrastructure_path : Directory) (azure_cli_path : Option Directory)
    (azure_oidc_token azure_client_id azure_tenant_id : Option String) (world : World)
    (s out : String) (records : List (List (String × Json)))
    (hls : world ((defaultPulumi.pulumi_az_base config_passphrase infrastructure_path
      azure_cli_path azure_oidc_token azure_client_id azure_tenant_id).with_exec
      ["pulumi", "stack", "ls", "--json"]) = .ok s)
    (hparse : json_loads s = .ok (stackListJson records))
    (hnone : hasStackName records "" = false)
    (hrun : world ((defaultPulumi.pulumi_az_base config_passphrase infrastructure_path
      azure_cli_path azure_oidc_token azure_client_id azure_tenant_id).with_exec
      ["pulumi", "stack", "init", ""]) = .ok out) :
    defaultPulumi.stack_name = "" ∧
    Pulumi.create_or_select_stack defaultPulumi config_passphrase infrastructure_path
      azure_cli_path azure_oidc_token azure_client_id azure_tenant_id world =
    .ok ((defaultPulumi.pulumi_az_base config_passphrase infrastructure_path azure_cli_path
      azure_oidc_token azure_client_id azure_tenant_id).with_exec
      ["pulumi", "stack", "init", ""]) := by
  have h0 : hasStackName records defaultPulumi.stack_name = false := hnone
  refine ⟨rfl, ?_⟩
  have h := Pulumi.create_or_select_resolved defaultPulumi config_passphrase
    infrastructure_path azure_cli_path azure_oidc_token azure_client_id azure_tenant_id
    world s out records hls hparse (by simpa [h0] using hrun)
  simpa [h0] using h

/-- Witness for C10 at a concrete input: default object, empty listing,
resulting command `pulumi stack init` with the empty name. -/
theorem c10_empty_default_stack_name_witness :
    defaultPulumi.stack_name = "" ∧
    Pulumi.create_or_select_stack defaultPulumi (Secret.mk "pw") (Directory.mk "i" [])
      none none none none (fun _ => Except.ok "[]") =
    Except.ok ((defaultPulumi.pulumi_az_base (Secret.mk "pw") (Directory.mk "i" [])
      none none none none).with_exec ["pulumi", "stack", "init", ""]) :=
  c10_empty_default_stack_name (Secret.mk "pw") (Directory.mk "i" []) none none none none
    (fun _ => Except.ok "[]") "[]" "[]" [] rfl rfl rfl rfl

/-- The nine environment-variable names the OIDC branch sets; they realize
the five OIDC-related variables of the specification (token, use-OIDC
flag, client id, tenant id, federated-token file path), the first four
mirrored under both the `ARM_` and `AZURE_` prefixes. -/
def oidcEnvNames : List String :=
  ["ARM_OIDC_TOKEN", "AZURE_OIDC_TOKEN", "ARM_USE_OIDC", "AZURE_USE_OIDC", "ARM_CLIENT_ID",
    "AZURE_CLIENT_ID", "ARM_TENANT_ID", "AZURE_TENANT_ID", "AZURE_FEDERATED_TOKEN_FILE"]

/-- Claim C2: whenever the OIDC token input is present (truthy: the
source's guard `if azure_oidc_token:` requires a non-empty string), the
authentication builder writes the token to the fixed path
`/root/.azure/oidc_token` and the environment variables it sets are
exactly the CLI marker (when that branch also ran) followed by the nine
OIDC entries carrying the literal values supplied: the token twice, the
flag `true` twice, the client id and tenant id verbatim (even when they
are `None`), and the federated-token file path. -/
theorem c2_oidc_context (self : PulumiState) (config_passphrase : Secret)
    (infrastructure_path : Directory) (azure_cli_path : Option Directory) (t : String)
    (azure_client_id azure_tenant_id : Option String) (ht : t.isEmpty = false) :
    (self.pulumi_az_base config_passphrase infrastructure_path azure_cli_path (some t)
      azure_client_id azure_tenant_id).fileLookup "/root/.azure/oidc_token" = some t ∧
    (self.pulumi_az_base config_passphrase infrastructure_path azure_cli_path (some t)
      azure_client_id azure_tenant_id).envs =
      (match azure_cli_path with
        | some _ => [("AZURE_AUTH", some "az")]
        | none => []) ++
      [("ARM_OIDC_TOKEN", some t), ("AZURE_OIDC_TOKEN", some t), ("ARM_USE_OIDC", some "true"),
        ("AZURE_USE_OIDC", some "true"), ("ARM_CLIENT_ID", azure_client_id),
        ("AZURE_CLIENT_ID", azure_client_id), ("ARM_TENANT_ID", azure_tenant_id),
        ("AZURE_TENANT_ID", azure_tenant_id),
        ("AZURE_FEDERATED_TOKEN_FILE", some "/root/.azure/oidc_token")] := by
  cases azure_cli_path <;>
    simp [PulumiState.pulumi_az_base, PulumiState.build_container, Container.from_,
      Container.with_directory, Container.with_new_file, Container.with_env_variable,
      Container.with_secret_variable, Container.with_workdir, Container.with_mounted_cache,
      Container.with_exec, Container.fileLookup, ht]

/-- Witness for C2 at a concrete input: token `tok`, client id `cid`,
absent tenant id, no CLI config. -/
theorem c2_oidc_context_witness :
    (PulumiState.pulumi_az_base defaultPulumi (Secret.mk "pw") (Directory.mk "i" []) none
      (some "tok") (some "cid") none).fileLookup "/root/.azure/oidc_token" = some "tok" ∧
    (PulumiState.pulumi_az_base defaultPulumi (Secret.mk "pw") (Directory.mk "i" []) none
      (some "tok") (some "cid") none).envs =
      [("ARM_OIDC_TOKEN", some "tok"), ("AZURE_OIDC_TOKEN", some "tok"),
        ("ARM_USE_OIDC", some "true"), ("AZURE_USE_OIDC", some "true"),
        ("ARM_CLIENT_ID", some "cid"), ("AZURE_CLIENT_ID", some "cid"),
        ("ARM_TENANT_ID", none), ("AZURE_TENANT_ID", none),
        ("AZURE_FEDERATED_TOKEN_FILE", some "/root/.azure/oidc_token")] :=
  c2_oidc_context defaultPulumi (Secret.mk "pw") (Directory.mk "i" []) none "tok"
    (some "cid") none rfl

/-- Claim C4: on every branch combination of the optional credential
inputs, and in both revisions of the module, the context returned by the
authentication builder carries the secret-valued
`PULUMI_CONFIG_PASSPHRASE` variable. -/
theorem c4_passphrase_unconditional (self : PulumiState) (config_passphrase : Secret)
    (infrastructure_path : Directory) (azure_cli_path : Option Directory)
    (azure_oidc_token azure_client_id azure_tenant_id : Option String)
    (storage_account_name container_name : String) (azure_oidc_secret : Option Secret) :
    ("PULUMI_CONFIG_PASSPHRASE", config_passphrase) ∈
      (self.pulumi_az_base config_passphrase infrastructure_path azure_cli_path
        azure_oidc_token azure_client_id azure_tenant_id).secrets ∧
    ("PULUMI_CONFIG_PASSPHRASE", config_passphrase) ∈
      (PulumiV0.pulumi_az_base storage_account_name container_name config_passphrase
        infrastructure_path azure_cli_path azure_oidc_secret azure_client_id
        azure_tenant_id).secrets := by
  constructor
  · simp only [PulumiState.pulumi_az_base, Container.with_exec, Container.with_secret_variable]
    exact List.mem_append_right _ (List.mem_singleton.mpr rfl)
  · simp only [PulumiV0.pulumi_az_base, Container.with_exec, Container.with_workdir,
      Container.with_directory, Container.with_secret_variable]
    exact List.mem_append_right _ (List.mem_singleton.mpr rfl)

/-- Claim C5: when both the CLI config and the OIDC inputs are supplied,
the resulting context carries the union of both branches' effects — the
config mount and the CLI marker together with the token file and all nine
OIDC variables — with neither branch overriding the other. -/
theorem c5_auth_branch_union (self : PulumiState) (config_passphrase : Secret)
    (infrastructure_path : Directory) (d : Directory) (t : String)
    (azure_client_id azure_tenant_id : Option String) (ht : t.isEmpty = false) :
    (self.pulumi_az_base config_passphrase infrastructure_path (some d) (some t)
      azure_client_id azure_tenant_id).dirLookup "/root/.azure" = some d ∧
    (self.pulumi_az_base config_passphrase infrastructure_path (some d) (some t)
      azure_client_id azure_tenant_id).envLookup "AZURE_AUTH" = some (some "az") ∧
    (self.pulumi_az_base config_passphrase infrastructure_path (some d) (some t)
      azure_client_id azure_tenant_id).fileLookup "/root/.azure/oidc_token" = some t ∧
    (self.pulumi_az_base config_passphrase infrastructure_path (some d) (some t)
      azure_client_id azure_tenant_id).envLookup "ARM_OIDC_TOKEN" = some (some t) ∧
    (self.pulumi_az_base config_passphrase infrastructure_path (some d) (some t)
      azure_client_id azure_tenant_id).envLookup "AZURE_OIDC_TOKEN" = some (some t) ∧
    (self.pulumi_az_base config_passphrase infrastructure_path (some d) (some t)
      azure_client_id azure_tenant_id).envLookup "ARM_USE_OIDC" = some (some "true") ∧
    (self.pulumi_az_base config_passphrase infrastructure_path (some d) (some t)
      azure_client_id azure_tenant_id).envLookup "AZURE_USE_OIDC" = some (some "true") ∧
    (self.pulumi_az_base config_passphrase infrastructure_path (some d) (some t)
      azure_client_id azure_tenant_id).envLookup "ARM_CLIENT_ID" = some azure_client_id ∧
    (self.pulumi_az_base config_passphrase infrastructure_path (some d) (some t)
      azure_client_id azure_tenant_id).envLookup "AZURE_CLIENT_ID" = some azure_client_id ∧
    (self.pulumi_az_base config_passphrase infrastructure_path (some d) (some t)
      azure_client_id azure_tenant_id).envLookup "ARM_TENANT_ID" = some azure_tenant_id ∧
    (self.pulumi_az_base config_passphrase infrastructure_path (some d) (some t)
      azure_client_id azure_tenant_id).envLookup "AZURE_TENANT_ID" = some azure_tenant_id ∧
    (self.pulumi_az_base config_passphrase infrastructure_path (some d) (some t)
      azure_client_id azure_tenant_id).envLookup "AZURE_FEDERATED_TOKEN_FILE" =
      some (some "/root/.azure/oidc_token") := by
  refine ⟨?_, ?_, ?_, ?_, ?_, ?_, ?_, ?_, ?_, ?_, ?_, ?_⟩ <;>
    simp [PulumiState.pulumi_az_base, PulumiState.build_container, Container.from_,
      Container.with_directory, Container.with_new_file, Container.with_env_variable,
      Container.with_secret_variable, Container.with_workdir, Container.with_mounted_cache,
      Container.with_exec, Container.fileLookup, Container.envLookup, Container.dirLookup, ht]

/-- Witness for C5 at a concrete input. -/
theorem c5_auth_branch_union_witness :
    (PulumiState.pulumi_az_base defaultPulumi (Secret.mk "pw") (Directory.mk "i" [])
      (some (Directory.mk "azcfg" [])) (some "tok") (some "cid") (some "tid")).dirLookup
      "/root/.azure" = some (Directory.mk "azcfg" []) ∧
    (PulumiState.pulumi_az_base defaultPulumi (Secret.mk "pw") (Directory.mk "i" [])
      (some (Directory.mk "azcfg" [])) (some "tok") (some "cid") (some "tid")).envLookup
      "AZURE_AUTH" = some (some "az") ∧
    (PulumiState.pulumi_az_base defaultPulumi (Secret.mk "pw") (Directory.mk "i" [])
      (some (Directory.mk "azcfg" [])) (some "tok") (some "cid") (some "tid")).fileLookup
      "/root/.azure/oidc_token" = some "tok" ∧
    (PulumiState.pulumi_az_base defaultPulumi (Secret.mk "pw") (Directory.mk "i" [])
      (some (Directory.mk "azcfg" [])) (some "tok") (some "cid") (some "tid")).envLookup
      "ARM_OIDC_TOKEN" = some (some "tok") ∧
    (PulumiState.pulumi_az_base defaultPulumi (Secret.mk "pw") (Directory.mk "i" [])
      (some (Directory.mk "azcfg" [])) (some "tok") (some "cid") (some "tid")).envLookup
      "AZURE_OIDC_TOKEN" = some (some "tok") ∧
    (PulumiState.pulumi_az_base defaultPulumi (Secret.mk "pw") (Directory.mk "i" [])
      (some (Directory.mk "azcfg" [])) (some "tok") (some "cid") (some "tid")).envLookup
      "ARM_USE_OIDC" = some (some "true") ∧
    (PulumiState.pulumi_az_base defaultPulumi (Secret.mk "pw") (Directory.mk "i" [])
      (some (Directory.mk "azcfg" [])) (some "tok") (some "cid") (some "tid")).envLookup
      "AZURE_USE_OIDC" = some (some "true") ∧
    (PulumiState.pulumi_az_base defaultPulumi (Secret.mk "pw") (Directory.mk "i" [])
      (some (Directory.mk "azcfg" [])) (some "tok") (some "cid") (some "tid")).envLookup
      "ARM_CLIENT_ID" = some (some "cid") ∧
    (PulumiState.pulumi_az_base defaultPulumi (Secret.mk "pw") (Directory.mk "i" [])
      (some (Directory.mk "azcfg" [])) (some "tok") (some "cid") (some "tid")).envLookup
      "AZURE_CLIENT_ID" = some (some "cid") ∧
    (PulumiState.pulumi_az_base defaultPulumi (Secret.mk "pw") (Directory.mk "i" [])
      (some (Directory.mk "azcfg" [])) (some "tok") (some "cid") (some "tid")).envLookup
      "ARM_TENANT_ID" = some (some "tid") ∧
    (PulumiState.pulumi_az_base defaultPulumi (Secret.mk "pw") (Directory.mk "i" [])
      (some (Directory.mk "azcfg" [])) (some "tok") (some "cid") (some "tid")).envLookup
      "AZURE_TENANT_ID" = some (some "tid") ∧
    (PulumiState.pulumi_az_base defaultPulumi (Secret.mk "pw") (Directory.mk "i" [])
      (some (Directory.mk "azcfg" [])) (some "tok") (some "cid") (some "tid")).envLookup
      "AZURE_FEDERATED_TOKEN_FILE" = some (some "/root/.azure/oidc_token") :=
  c5_auth_branch_union defaultPulumi (Secret.mk "pw") (Directory.mk "i" [])
    (Directory.mk "azcfg" []) "tok" (some "cid") (some "tid") rfl

/-- Claim C6: when only the CLI config is supplied (no OIDC token), the
resulting context mounts the config directory at `/root/.azure`, sets the
`AZURE_AUTH` marker — indeed the marker is the only environment variable
set at all — and sets none of the OIDC variables, nor the token file. -/
theorem c6_cli_only_no_oidc (self : PulumiState) (config_passphrase : Secret)
    (infrastructure_path : Directory) (d : Directory)
    (azure_client_id azure_tenant_id : Option String) :
    (self.pulumi_az_base config_passphrase infrastructure_path (some d) none
      azure_client_id azure_tenant_id).dirLookup "/root/.azure" = some d ∧
    (self.pulumi_az_base config_passphrase infrastructure_path (some d) none
      azure_client_id azure_tenant_id).envs = [("AZURE_AUTH", some "az")] ∧
    (self.pulumi_az_base config_passphrase infrastructure_path (some d) none
      azure_client_id azure_tenant_id).files = [] ∧
    (oidcEnvNames.all (fun n =>
      (self.pulumi_az_base config_passphrase infrastructure_path (some d) none
        azure_client_id azure_tenant_id).envLookup n == none)) = true := by
  refine ⟨?_, ?_, ?_, ?_⟩ <;>
    simp [PulumiState.pulumi_az_base, PulumiState.build_container, Container.from_,
      Container.with_directory, Container.with_new_file, Container.with_env_variable,
      Container.with_secret_variable, Container.with_workdir, Container.with_mounted_cache,
      Container.with_exec, Container.fileLookup, Container.envLookup, Container.dirLookup,
      oidcEnvNames]

/-- Claim C7, a code bug at the header clause: `comment_on_pr` does issue
exactly one POST — a single curl exec — against
`{organization_url}/{project}/_apis/git/repositories/{repository_id}/pullRequests/{pr_id}/threads?api-version=6.0`
with the documented JSON body, but the `Authorization: Basic` header
interpolates the `dagger.Secret` handle's Python string form — the object
repr, identical for every supplied token — so it never carries the
personal access token itself; the token is only mounted, unused, as the
`AZURE_DEVOPS_PAT` secret variable.  The second conjunct makes the
independence explicit (two different tokens, same issued command), and
the third evaluates the pipeline at the failing input. -/
theorem c7_post_header_secret_repr (azure_devops_pat alt_pat : Secret)
    (organization_url project repository_id pr_id comment : String) :
    ((Azdo.comment_ctr azure_devops_pat organization_url project repository_id pr_id
        comment).execs =
      [["curl", "-X", "POST",
        organization_url ++ "/" ++ project ++ "/_apis/git/repositories/" ++ repository_id ++
          "/pullRequests/" ++ pr_id ++ "/threads?api-version=6.0",
        "-H", "Content-Type: application/json",
        "-H", "Authorization: Basic <dagger.client.gen.Secret object>",
        "-d", json_dumps (Azdo.azdoPayload comment)]]) ∧
    (Azdo.comment_ctr azure_devops_pat organization_url project repository_id pr_id
        comment).execs =
      (Azdo.comment_ctr alt_pat organization_url project repository_id pr_id comment).execs ∧
    (Azdo.comment_ctr (Secret.mk "pat123") "https://dev.azure.com/org" "proj" "repo" "42"
        "LGTM").execs =
      [["curl", "-X", "POST",
        "https://dev.azure.com/org/proj/_apis/git/repositories/repo/pullRequests/42/threads?api-version=6.0",
        "-H", "Content-Type: application/json",
        "-H", "Authorization: Basic <dagger.client.gen.Secret object>",
        "-d", "\x7b\"comments\": [\x7b\"parentCommentId\": 0, \"content\": \"LGTM\", \"commentType\": 1\x7d], \"status\": 1\x7d"]] :=
  ⟨rfl, rfl, rfl⟩

/-- `True` exactly when the error is the `RuntimeError` wrapper the
current revision produces around failures. -/
def isRuntimeError : PulErr → Bool
  | .runtimeError _ => true
  | _ => false

/-- Counterexample to claim C8: in the older revision, `up` surfaces a
stack-resolution failure (malformed listing output) as the raw
`json.JSONDecodeError`, not wrapped in any error whose message identifies
the failing high-level operation — so the wrapping clause does not hold
for every function of the core in every revision. -/
theorem c8_unwrapped_error_v0 :
    PulumiV0.up "sa" "cn" (Directory.mk "i" []) "st" (Secret.mk "pw") none none none none
      (fun _ => Except.ok "nope") =
      Except.error (PulErr.jsonDecodeError "Expecting value") ∧
    isRuntimeError (PulErr.jsonDecodeError "Expecting value") = false :=
  ⟨rfl, rfl⟩

/-- Claim C8 as amended: every failure during stack resolution, preview
or up propagates immediately to the caller, and in the current revision
`preview` and `up` wrap it in a `RuntimeError` whose message names the
failing operation; the older revision's functions propagate the failure
unwrapped. -/
theorem c8_error_wrapping (self : PulumiState) (storage_account_name container_name : String)
    (config_passphrase : Secret) (infrastructure_path : Directory) (stack_name : String)
    (azure_cli_path : Option Directory)
    (azure_oidc_token azure_client_id azure_tenant_id : Option String) (world : World) :
    (∀ e, (Pulumi.preview self storage_account_name container_name config_passphrase
        infrastructure_path stack_name azure_cli_path azure_oidc_token azure_client_id
        azure_tenant_id world).2 = .error e →
      ∃ m, e = PulErr.runtimeError ("Error during Pulumi preview: " ++ m)) ∧
    (∀ e, (Pulumi.up self storage_account_name container_name config_passphrase
        infrastructure_path stack_name azure_cli_path azure_oidc_token azure_client_id
        azure_tenant_id world).2 = .error e →
      ∃ m, e = PulErr.runtimeError ("Error during Pulumi up: " ++ m)) := by
  constructor
  · intro e he
    simp only [Pulumi.preview] at he
    split at he
    · injection he with h
      subst h
      exact ⟨_, rfl⟩
    · split at he
      · injection he with h
        subst h
        exact ⟨_, rfl⟩
      · exact Except.noConfusion he
  · intro e he
    simp only [Pulumi.up] at he
    split at he
    · injection he with h
      subst h
      exact ⟨_, rfl⟩
    · split at he
      · injection he with h
        subst h
        exact ⟨_, rfl⟩
      · exact Except.noConfusion he

/-- Witness for the amended C8 at a concrete input: a malformed listing
makes `preview` fail with the operation-naming `RuntimeError` wrapper. -/
theorem c8_error_wrapping_witness :
    ∃ m, PulErr.runtimeError "Error during Pulumi preview: Expecting value" =
      PulErr.runtimeError ("Error during Pulumi preview: " ++ m) :=
  (c8_error_wrapping defaultPulumi "sa" "cn" (Secret.mk "pw") (Directory.mk "i" []) "st"
    none none none none (fun _ => Except.ok "nope")).1
    (PulErr.runtimeError "Error during Pulumi preview: Expecting value") rfl

/-- Counterexample to claim C9: two invocations of `preview` with
identical arguments and identical world behavior diverge when the
objects' `pulumi_image` fields differ, because the execution context is
built from that field as well — so the result is not independent of the
object's prior field values. -/
theorem c9_image_dependence :
    (Pulumi.preview defaultPulumi "sa" "cn" (Secret.mk "pw") (Directory.mk "i" []) "st"
      none none none none
      (fun c => if c.image == some "other" then Except.error "boom" else Except.ok "[]")).2 ≠
    (Pulumi.preview { defaultPulumi with pulumi_image := "other" } "sa" "cn" (Secret.mk "pw")
      (Directory.mk "i" []) "st" none none none none
      (fun c => if c.image == some "other" then Except.error "boom" else Except.ok "[]")).2 := by
  have h1 : (Pulumi.preview defaultPulumi "sa" "cn" (Secret.mk "pw") (Directory.mk "i" [])
      "st" none none none none
      (fun c => if c.image == some "other" then Except.error "boom" else Except.ok "[]")).2 =
      Except.ok "[]" := rfl
  have h2 : (Pulumi.preview { defaultPulumi with pulumi_image := "other" } "sa" "cn"
      (Secret.mk "pw") (Directory.mk "i" []) "st" none none none none
      (fun c => if c.image == some "other" then Except.error "boom" else Except.ok "[]")).2 =
      Except.error (PulErr.runtimeError "Error during Pulumi preview: boom") := rfl
  rw [h1, h2]
  intro h
  exact Except.noConfusion h

/-- Claim C9 as amended: `preview` and `up` are deterministic over their
arguments and the constructor-set configuration fields: whenever two
object states agree on `pulumi_image` and `cache_dir`, invocations with
identical arguments and world produce identical states and results — the
three mutable fields are overwritten from the arguments, so no prior
invocation can influence the outcome. -/
theorem c9_field_determinism (s1 s2 : PulumiState)
    (himg : s1.pulumi_image = s2.pulumi_image) (hcache : s1.cache_dir = s2.cache_dir)
    (storage_account_name container_name : String) (config_passphrase : Secret)
    (infrastructure_path : Directory) (stack_name : String)
    (azure_cli_path : Option Directory)
    (azure_oidc_token azure_client_id azure_tenant_id : Option String) (world : World) :
    Pulumi.preview s1 storage_account_name container_name config_passphrase
        infrastructure_path stack_name azure_cli_path azure_oidc_token azure_client_id
        azure_tenant_id world =
      Pulumi.preview s2 storage_account_name container_name config_passphrase
        infrastructure_path stack_name azure_cli_path azure_oidc_token azure_client_id
        azure_tenant_id world ∧
    Pulumi.up s1 storage_account_name container_name config_passphrase
        infrastructure_path stack_name azure_cli_path azure_oidc_token azure_client_id
        azure_tenant_id world =
      Pulumi.up s2 storage_account_name container_name config_passphrase
        infrastructure_path stack_name azure_cli_path azure_oidc_token azure_client_id
        azure_tenant_id world := by
  cases s1
  cases s2
  simp only at himg hcache
  subst himg
  subst hcache
  exact ⟨rfl, rfl⟩

/-- Witness for the amended C9 at concrete inputs: an object carrying
leftover mutated fields from earlier work and a fresh default object give
identical results for identical arguments. -/
theorem c9_field_determinism_witness :
    Pulumi.preview
        { defaultPulumi with storage_account_name := "old", stack_name := "leftover" }
        "sa" "cn" (Secret.mk "pw") (Directory.mk "i" []) "st" none none none none
        (fun _ => Except.ok "[]") =
      Pulumi.preview defaultPulumi "sa" "cn" (Secret.mk "pw") (Directory.mk "i" []) "st"
        none none none none (fun _ => Except.ok "[]") ∧
    Pulumi.up { defaultPulumi with storage_account_name := "old", stack_name := "leftover" }
        "sa" "cn" (Secret.mk "pw") (Directory.mk "i" []) "st" none none none none
        (fun _ => Except.ok "[]") =
      Pulumi.up defaultPulumi "sa" "cn" (Secret.mk "pw") (Directory.mk "i" []) "st"
        none none none none (fun _ => Except.ok "[]") :=
  c9_field_determinism
    { defaultPulumi with storage_account_name := "old", stack_name := "leftover" }
    defaultPulumi rfl rfl "sa" "cn" (Secret.mk "pw") (Directory.mk "i" []) "st" none none
    none none (fun _ => Except.ok "[]")
